import Mathlib

/-!
# Verification of the clanker voice-input wake-word daemon

Shallow embedding of `src/voice-assistant-daemon.ts` (the always-on voice
assistant daemon).  JavaScript strings are modelled as `List Char`, byte
buffers as `List Nat`, and the asynchronous event loop as a small trace
semantics: chunk arrivals and inactivity-timer firings are explicit inputs,
the remote transcription service and the command dispatcher are oracles
(`Except` results passed in), and all observable side effects (emitted
events, service requests, spawned processes, log lines) are returned as
explicit lists.
-/

namespace VoiceDaemon

/-- JavaScript strings are modelled as lists of characters. -/
abbrev JStr := List Char

/-- Coerce a Lean string literal into the `JStr` model. -/
def str (s : String) : JStr := s.data

/-- Model of the JavaScript whitespace class `\s` restricted to the
whitespace characters that actually occur in transcripts. -/
def isWs (c : Char) : Bool := c == ' ' || c == '\t' || c == '\n' || c == '\r'

/-- Model of `String.prototype.toLowerCase`. -/
def toLowerL (s : JStr) : JStr := s.map Char.toLower

/-- Model of `String.prototype.trim`: strip leading and trailing whitespace. -/
def jsTrim (s : JStr) : JStr :=
  ((s.dropWhile isWs).reverse.dropWhile isWs).reverse

/-- Model of `replace(/[.,!?]/g, '')`: remove punctuation. -/
def stripPunct (s : JStr) : JStr :=
  s.filter fun c => !(c == '.' || c == ',' || c == '!' || c == '?')

/-- Helper for `collapseWs`: `prevWs` records whether the previous character
was part of a whitespace run already replaced by a single space. -/
def collapseWsAux : Bool → JStr → JStr
  | _, [] => []
  | prevWs, c :: rest =>
    if isWs c then
      if prevWs then collapseWsAux true rest
      else ' ' :: collapseWsAux true rest
    else c :: collapseWsAux false rest

/-- Model of `replace(/\s+/g, ' ')`: collapse each whitespace run to one space. -/
def collapseWs (s : JStr) : JStr := collapseWsAux false s

/-- Model of `String.prototype.includes`: substring containment. -/
def includes : JStr → JStr → Bool
  | [], p => p == []
  | t@(_ :: rest), p => p.isPrefixOf t || includes rest p

/-- Model of `String.prototype.startsWith`. -/
def startsWith (t p : JStr) : Bool := p.isPrefixOf t

/-- Model of `String.prototype.replace` with a string pattern: replace the first
occurrence of `pat` by `rep` (identity when `pat` does not occur). -/
def replaceFirst (pat rep : JStr) : JStr → JStr
  | [] => if pat == [] then rep else []
  | c :: rest =>
    if pat.isPrefixOf (c :: rest) then rep ++ (c :: rest).drop pat.length
    else c :: replaceFirst pat rep rest

/-- The settings fields the daemon logic reads
(`VoiceAssistantSettings`; `sensitivity` and the other fields are never
read by the modelled code and are omitted). -/
structure VoiceAssistantSettings where
  wakeWords : List JStr
  userTitle : JStr
  notificationsEnabled : Bool
  language : JStr
  wakeWordTimeout : Option Nat
  deriving Repr, DecidableEq

/-- The `defaultAssistantSettings` value of the daemon module. -/
def defaultAssistantSettings : VoiceAssistantSettings :=
  { wakeWords := [str "hey clanker", str "hey jarvis", str "clanker"]
    userTitle := str "sir"
    notificationsEnabled := true
    language := str "en-US"
    wakeWordTimeout := some 3000 }

/-- Model of `this.settings.wakeWordTimeout || 3000`: JavaScript `||` falls back on
`undefined` and on `0` (both falsy). -/
def effectiveTimeout (settings : VoiceAssistantSettings) : Nat :=
  match settings.wakeWordTimeout with
  | none => 3000
  | some t => if t = 0 then 3000 else t

/-- Model of `isSimilarPhrase(text, target)`: substitute known phonetic confusions
of "clanker" into the target phrase and test substring containment. -/
def clankerVariations : List JStr :=
  [str "flanker", str "clank her", str "clanger", str "clencher", str "clinker"]

def isSimilarPhrase (text target : JStr) : Bool :=
  clankerVariations.any fun variation =>
    includes text (replaceFirst (str "clanker") variation target)

/-- Model of `detectWakeWord(audioBuffer)`: the remote transcription outcome is the
`Except` argument (the `try`/`catch` around the service call becomes the
`.error` branch, which returns `false` — fail-open). -/
def detectWakeWord (settings : VoiceAssistantSettings)
    (transcription : Except Unit JStr) : Bool :=
  match transcription with
  | .error _ => false
  | .ok t =>
    let lowerText := jsTrim (toLowerL t)
    settings.wakeWords.any fun wakeWord =>
      let wakeWordLower := toLowerL wakeWord
      let cleanText := collapseWs (stripPunct lowerText)
      let cleanWakeWord := collapseWs wakeWordLower
      includes cleanText cleanWakeWord ||
      startsWith cleanText cleanWakeWord ||
      isSimilarPhrase cleanText cleanWakeWord

/-! ## Mutable daemon state and observable effects -/

/-- The mutable fields of `VoiceAssistantDaemon` that the modelled logic
reads or writes.  `timerPending` models `silenceTimeout`: `true` when a
`setTimeout` is scheduled and has not yet fired or been cleared.
`recorders` counts recorder streams started by `record.record` and not
stopped (the "listeners" of the idempotence claim). -/
structure DaemonState where
  isListening : Bool
  isProcessing : Bool
  audioBuffer : List (List Nat)
  timerPending : Bool
  wakeWordDetected : Bool
  recorders : Nat
  deriving Repr, DecidableEq

/-- The daemon state right after construction. -/
def initialState : DaemonState :=
  { isListening := false, isProcessing := false, audioBuffer := []
    timerPending := false, wakeWordDetected := false, recorders := 0 }

/-- Events emitted through the `EventEmitter` interface. -/
inductive Ev where
  | listeningStarted
  | listeningStopped
  | wakeWordDetectedEv
  | processingCommand
  | commandRecognized (command : JStr)
  | wakeWordOnly
  | commandExecuted (command output : JStr)
  | commandError (command error : JStr)
  | errorEv (message : JStr)
  deriving Repr, DecidableEq

/-- Requests made to external collaborators: a wake-word transcription
check on one chunk, a command transcription on the accumulated audio, a
dispatch of a command to the `clanker` CLI, or a user notification. -/
inductive Req where
  | wakeCheck (audio : List Nat)
  | commandTranscribe (audio : List Nat)
  | dispatch (command : JStr)
  | notify (title message : JStr)
  deriving Repr, DecidableEq

/-- Result of one handler: the new state plus emitted events and external
requests, in order. -/
structure StepOut where
  state : DaemonState
  events : List Ev
  reqs : List Req
  deriving Repr, DecidableEq

/-- The command-transcription requests among a request list. -/
def commandTranscribeReqs (reqs : List Req) : List (List Nat) :=
  reqs.filterMap fun r =>
    match r with
    | .commandTranscribe a => some a
    | _ => none

/-- The dispatcher invocations among a request list. -/
def dispatchReqs (reqs : List Req) : List JStr :=
  reqs.filterMap fun r =>
    match r with
    | .dispatch c => some c
    | _ => none

/-- The wake-word checks among a request list. -/
def wakeCheckReqs (reqs : List Req) : List (List Nat) :=
  reqs.filterMap fun r =>
    match r with
    | .wakeCheck a => some a
    | _ => none

/-! ## Chunk segmenter (`createWakeWordDetector` constants and loop) -/

def CHUNK_DURATION : Nat := 2000
def SAMPLE_RATE : Nat := 16000
def BYTES_PER_SAMPLE : Nat := 2
def CHUNK_SIZE : Nat := SAMPLE_RATE * BYTES_PER_SAMPLE * (CHUNK_DURATION / 1000)
def MAX_BUFFER_SIZE : Nat := CHUNK_SIZE * 3

/-- Loop body of the `while (buffer.length >= CHUNK_SIZE)` loop, with
explicit fuel (the loop runs at most `buf.length` times since each
iteration consumes `n ≥ 1` bytes). -/
def splitChunksGo (n : Nat) : Nat → List Nat → List (List Nat) × List Nat
  | 0, buf => ([], buf)
  | fuel + 1, buf =>
    if 0 < n ∧ n ≤ buf.length then
      let r := splitChunksGo n fuel (buf.drop n)
      (buf.take n :: r.1, r.2)
    else ([], buf)

/-- The `while (buffer.length >= CHUNK_SIZE)` loop: split the accumulation
buffer into leading chunks of exactly `n` bytes, returning the emitted
chunks and the retained remainder. -/
def splitChunks (n : Nat) (buf : List Nat) : List (List Nat) × List Nat :=
  splitChunksGo n buf.length buf

/-- One `transform` callback of the segmenter, state threaded explicitly:
append the incoming bytes, trim to `MAX_BUFFER_SIZE` keeping the newest
bytes (`buffer.slice(buffer.length - MAX_BUFFER_SIZE)`), then emit
`CHUNK_SIZE`-byte chunks while possible. -/
def segmentStep (buffer chunk : List Nat) : List (List Nat) × List Nat :=
  let buf := buffer ++ chunk
  let trimmed :=
    if MAX_BUFFER_SIZE < buf.length then buf.drop (buf.length - MAX_BUFFER_SIZE)
    else buf
  splitChunks CHUNK_SIZE trimmed

/-! ## Wake-word session state machine -/

/-- Model of `onWakeWordDetected()`: arm the session, clear the command buffer,
emit the event, optionally notify, and (re)start the inactivity timer. -/
def onWakeWordDetected (settings : VoiceAssistantSettings)
    (s : DaemonState) : StepOut :=
  { state :=
      { s with
        wakeWordDetected := true
        audioBuffer := []
        timerPending := true },
    events := [Ev.wakeWordDetectedEv],
    reqs :=
      if settings.notificationsEnabled then
        [Req.notify (str "Listening...")
          (str "Yes, " ++ settings.userTitle ++ str "?")]
      else [] }

/-- The per-emitted-chunk body of the segmenter loop
(lines 188–198 of the daemon): in idle state run one wake-word check on the
chunk; while the wake word is flagged, buffer the chunk and reset the
inactivity timer; otherwise drop the chunk.  `tr` is the transcription
service's answer for this chunk's wake check. -/
def handleEmittedChunk (settings : VoiceAssistantSettings) (s : DaemonState)
    (tr : Except Unit JStr) (audioChunk : List Nat) : StepOut :=
  if !s.wakeWordDetected && !s.isProcessing then
    if detectWakeWord settings tr then
      let o := onWakeWordDetected settings s
      { o with reqs := Req.wakeCheck audioChunk :: o.reqs }
    else { state := s, events := [], reqs := [Req.wakeCheck audioChunk] }
  else if s.wakeWordDetected then
    { state :=
        { s with
          audioBuffer := s.audioBuffer ++ [audioChunk]
          timerPending := true },
      events := [], reqs := [] }
  else { state := s, events := [], reqs := [] }

/-- Outcome of `execAsync` on the dispatched command: `completed` carries
the captured stdout and stderr, `failed` the thrown error's message. -/
inductive DispatchOutcome where
  | completed (stdout stderr : JStr)
  | failed (message : JStr)
  deriving Repr, DecidableEq

/-- Model of `executeCommand(command)`: emit `command-executed` when stdout is
truthy (non-empty), `command-error` when stderr is truthy; a thrown
dispatch error is caught and reported as a single `command-error`. -/
def executeCommandEvents (command : JStr) (outcome : DispatchOutcome) :
    List Ev :=
  match outcome with
  | .completed out err =>
    (if out == [] then [] else [Ev.commandExecuted command out]) ++
    (if err == [] then [] else [Ev.commandError command err])
  | .failed msg => [Ev.commandError command msg]

/-- The test `cleanCommand === ww || cleanCommand === ww + '.' || cleanCommand
=== ww + '...'` over the configured wake words. -/
def isJustWakeWord (wakeWords : List JStr) (cleanCommand : JStr) : Bool :=
  wakeWords.any fun ww =>
    cleanCommand == toLowerL ww ||
    cleanCommand == toLowerL ww ++ str "." ||
    cleanCommand == toLowerL ww ++ str "..."

/-- First half of `onSilenceDetected()`, up to and including issuing the
command-transcription request: the guard clause (not armed, or empty
buffer, returns to idle), then `isProcessing = true`, the
`processing-command` event, and the transcription of the concatenated
buffer.  Returns the audio sent for transcription, or `none` when the
guard clause returned early. -/
def onSilenceBegin (s : DaemonState) : StepOut × Option (List Nat) :=
  if !s.wakeWordDetected || s.audioBuffer.isEmpty then
    ({ state := { s with wakeWordDetected := false }, events := [], reqs := [] },
     none)
  else
    ({ state := { s with isProcessing := true },
       events := [Ev.processingCommand],
       reqs := [Req.commandTranscribe s.audioBuffer.flatten] },
     some s.audioBuffer.flatten)

/-- Second half of `onSilenceDetected()`, from the transcription result
on: classify wake-word-only transcripts, otherwise dispatch; a
transcription error is reported as an `error` event; the `finally` block
always clears both flags and the buffer. -/
def onSilenceFinish (settings : VoiceAssistantSettings) (s : DaemonState)
    (command : Except JStr JStr) (dispatch : DispatchOutcome) : StepOut :=
  let cleared : DaemonState :=
    { s with
      wakeWordDetected := false
      isProcessing := false
      audioBuffer := [] }
  match command with
  | .error e => { state := cleared, events := [Ev.errorEv e], reqs := [] }
  | .ok cmd =>
    let cleanCommand := jsTrim (toLowerL cmd)
    if !isJustWakeWord settings.wakeWords cleanCommand &&
        0 < (jsTrim cmd).length then
      { state := cleared,
        events := Ev.commandRecognized cmd :: executeCommandEvents cmd dispatch,
        reqs := [Req.dispatch cmd] }
    else
      { state := cleared, events := [Ev.wakeWordOnly], reqs := [] }

/-- The whole `onSilenceDetected()` handler, run to completion with the
transcription service modelled by `transcribe` and the dispatch outcome
by `dispatch`. -/
def onSilenceDetected (settings : VoiceAssistantSettings) (s : DaemonState)
    (transcribe : List Nat → Except JStr JStr) (dispatch : DispatchOutcome) :
    StepOut :=
  let b := onSilenceBegin s
  match b.2 with
  | none => b.1
  | some audio =>
    let f := onSilenceFinish settings b.1.state (transcribe audio) dispatch
    { state := f.state, events := b.1.events ++ f.events,
      reqs := b.1.reqs ++ f.reqs }

/-! ## Trace semantics of the event loop -/

/-- External stimuli of the single-threaded event loop: an emitted audio
chunk (with that chunk's wake-check transcription outcome), or a firing
of the inactivity timer (with the dispatch outcome used if a command is
dispatched). -/
inductive VInput where
  | chunk (tr : Except Unit JStr) (bytes : List Nat)
  | timerFire (dispatch : DispatchOutcome)
  deriving Repr

/-- One event-loop step.  A `timerFire` is a no-op unless a timeout is
actually pending (a cleared or already-fired `setTimeout` does not fire);
firing consumes the pending timeout and runs `onSilenceDetected`. -/
def stepInput (settings : VoiceAssistantSettings)
    (transcribe : List Nat → Except JStr JStr) (s : DaemonState) :
    VInput → StepOut
  | .chunk tr bytes => handleEmittedChunk settings s tr bytes
  | .timerFire dispatch =>
    if s.timerPending then
      onSilenceDetected settings { s with timerPending := false }
        transcribe dispatch
    else { state := s, events := [], reqs := [] }

/-- Run a sequence of stimuli, concatenating observable effects. -/
def runTrace (settings : VoiceAssistantSettings)
    (transcribe : List Nat → Except JStr JStr) (s : DaemonState) :
    List VInput → StepOut
  | [] => { state := s, events := [], reqs := [] }
  | i :: rest =>
    let o := stepInput settings transcribe s i
    let r := runTrace settings transcribe o.state rest
    { state := r.state, events := o.events ++ r.events,
      reqs := o.reqs ++ r.reqs }

/-! ## Daemon lifecycle (`startDaemon`, `startListening`) -/

/-- Log lines the lifecycle operations print. -/
inductive LogLine where
  | alreadyRunning
  | started (pid : Nat)
  deriving Repr, DecidableEq

/-- Observable effects of `startDaemon()`. -/
structure StartDaemonOut where
  spawnedPids : List Nat
  pidFileWrites : List Nat
  logs : List LogLine
  deriving Repr, DecidableEq

/-- Model of `startDaemon()`: `running` is the result of the `isRunning()` PID-file
liveness probe (read the recorded PID, `kill -0` it); when it succeeds the
call only logs already-running, otherwise it spawns the daemon-runner
child (`childPid`) and records its PID. -/
def startDaemon (running : Bool) (childPid : Nat) : StartDaemonOut :=
  if running then
    { spawnedPids := [], pidFileWrites := [], logs := [.alreadyRunning] }
  else
    { spawnedPids := [childPid], pidFileWrites := [childPid],
      logs := [.started childPid] }

/-- Model of `startListening()`: guarded by the in-process `isListening` flag; when
clear, set it, emit `listening-started` and start one recorder stream. -/
def startListening (s : DaemonState) : StepOut :=
  if s.isListening then { state := s, events := [], reqs := [] }
  else
    { state := { s with isListening := true, recorders := s.recorders + 1 },
      events := [Ev.listeningStarted], reqs := [] }

/-! ## Segmenter lemmas -/

theorem splitChunksGo_length_mem (n : Nat) :
    ∀ (fuel : Nat) (buf : List Nat),
      ∀ c ∈ (splitChunksGo n fuel buf).1, c.length = n := by
  intro fuel
  induction fuel with
  | zero => intro buf c hc; simp [splitChunksGo] at hc
  | succ fuel ih =>
    intro buf c hc
    simp only [splitChunksGo] at hc
    split at hc
    · rename_i hcond
      rcases List.mem_cons.mp hc with hc | hc
      · subst hc
        simpa [List.length_take] using Nat.min_eq_left hcond.2
      · exact ih _ c hc
    · simp at hc

theorem splitChunksGo_rest_lt (n : Nat) (hn : 0 < n) :
    ∀ (fuel : Nat) (buf : List Nat), buf.length ≤ fuel →
      (splitChunksGo n fuel buf).2.length < n := by
  intro fuel
  induction fuel with
  | zero =>
    intro buf hle
    have : buf = [] := List.length_eq_zero.mp (Nat.le_zero.mp hle)
    subst this
    simpa [splitChunksGo] using hn
  | succ fuel ih =>
    intro buf hle
    simp only [splitChunksGo]
    split
    · rename_i hcond
      apply ih
      simp only [List.length_drop]
      omega
    · rename_i hcond
      rw [not_and] at hcond
      have h2 := hcond hn
      show buf.length < n
      omega

theorem splitChunksGo_flatten (n : Nat) :
    ∀ (fuel : Nat) (buf : List Nat),
      (splitChunksGo n fuel buf).1.flatten ++ (splitChunksGo n fuel buf).2 =
        buf := by
  intro fuel
  induction fuel with
  | zero => intro buf; simp [splitChunksGo]
  | succ fuel ih =>
    intro buf
    simp only [splitChunksGo]
    split
    · simp only [List.flatten_cons, List.append_assoc, ih]
      exact List.take_append_drop n buf
    · simp

/-- C5: the Chunk Segmenter only ever emits chunks of exactly
`CHUNK_SIZE` bytes (`sampleRate × bytesPerSample × chunkDuration`); the
trailing partial chunk is retained as the new accumulation buffer
(strictly shorter than `CHUNK_SIZE`), and the emitted chunks followed by
that remainder form a contiguous suffix of the appended input, so no
short chunk is ever emitted. -/
theorem segmenter_emits_exact_chunks (buffer chunk : List Nat) :
    (∀ c ∈ (segmentStep buffer chunk).1, c.length = CHUNK_SIZE) ∧
    (segmentStep buffer chunk).2.length < CHUNK_SIZE ∧
    (segmentStep buffer chunk).1.flatten ++ (segmentStep buffer chunk).2 <:+
      buffer ++ chunk := by
  have hpos : 0 < CHUNK_SIZE := by decide
  unfold segmentStep splitChunks
  refine ⟨fun c hc => splitChunksGo_length_mem CHUNK_SIZE _ _ c hc,
    splitChunksGo_rest_lt CHUNK_SIZE hpos _ _ le_rfl, ?_⟩
  rw [splitChunksGo_flatten]
  split
  · exact List.drop_suffix _ _
  · exact List.suffix_refl _

/-- C6: with wake phrase "hey clanker", the transcript
"hey flanker, do this" is detected as a wake word, and specifically via
the fuzzy-variant path: direct substring containment and prefix matching
of the normalized transcript both fail, while `isSimilarPhrase` succeeds
by substituting the phonetic confusion "flanker" for "clanker" in the
phrase. -/
theorem fuzzy_variant_detects_flanker :
    detectWakeWord
        { defaultAssistantSettings with wakeWords := [str "hey clanker"] }
        (.ok (str "hey flanker, do this")) = true ∧
    includes (collapseWs (stripPunct (jsTrim (toLowerL (str "hey flanker, do this")))))
        (collapseWs (toLowerL (str "hey clanker"))) = false ∧
    startsWith (collapseWs (stripPunct (jsTrim (toLowerL (str "hey flanker, do this")))))
        (collapseWs (toLowerL (str "hey clanker"))) = false ∧
    isSimilarPhrase (collapseWs (stripPunct (jsTrim (toLowerL (str "hey flanker, do this")))))
        (collapseWs (toLowerL (str "hey clanker"))) = true ∧
    replaceFirst (str "clanker") (str "flanker") (str "hey clanker") =
      str "hey flanker" ∧
    clankerVariations =
      [str "flanker", str "clank her", str "clanger", str "clencher",
       str "clinker"] := by
  refine ⟨by decide, by decide, by decide, by decide, by decide, rfl⟩

/-- C7 counterexample: the claim says exactly one of `command-executed` /
`command-error` is emitted per dispatched command.  But on a dispatch
that completes with empty stdout and empty stderr no event at all is
emitted, and on one that completes with both streams non-empty two
events are emitted. -/
theorem dispatch_events_counterexample :
    executeCommandEvents (str "do it") (.completed [] []) = [] ∧
    (executeCommandEvents (str "do it")
      (.completed (str "ok") (str "oops"))).length = 2 := by
  exact ⟨rfl, rfl⟩

/-- C7 amended: a dispatch exception is surfaced as exactly one
`command-error` event (and, the function being total, never crashes the
daemon); on a completed dispatch, `command-executed` is emitted iff the
captured stdout is non-empty and `command-error` iff the captured stderr
is non-empty, so zero, one or two events may result. -/
theorem dispatch_events_amended (cmd out err msg : JStr) :
    executeCommandEvents cmd (.failed msg) = [Ev.commandError cmd msg] ∧
    (Ev.commandExecuted cmd out ∈ executeCommandEvents cmd (.completed out err)
      ↔ out ≠ []) ∧
    (Ev.commandError cmd err ∈ executeCommandEvents cmd (.completed out err)
      ↔ err ≠ []) := by
  refine ⟨rfl, ?_, ?_⟩ <;>
  · unfold executeCommandEvents
    by_cases h : out = [] <;> by_cases h2 : err = [] <;> simp [h, h2]

/-- Witness for the amended C7 theorem at concrete inputs. -/
theorem dispatch_events_amended_witness :
    executeCommandEvents (str "c") (.failed (str "m")) =
      [Ev.commandError (str "c") (str "m")] ∧
    (Ev.commandExecuted (str "c") (str "o") ∈
        executeCommandEvents (str "c") (.completed (str "o") []) ↔
      str "o" ≠ []) ∧
    (Ev.commandError (str "c") [] ∈
        executeCommandEvents (str "c") (.completed (str "o") []) ↔
      ([] : JStr) ≠ []) :=
  dispatch_events_amended (str "c") (str "o") [] (str "m")

/-- C8 counterexample: with the daemon "alive" only through the
in-process `isListening` flag (no PID recorded, so the liveness probe
fails), a second `startListening` is silent — it neither reports
already-running through an event nor logs anything — and a
`startDaemon` call, whose guard consults only the PID probe, spawns a
second daemon process, contradicting "creates no second listener,
reports already-running". -/
theorem start_idempotence_counterexample :
    (startListening
      { initialState with isListening := true, recorders := 1 }).events = [] ∧
    (startListening
      { initialState with isListening := true, recorders := 1 }).state =
      { initialState with isListening := true, recorders := 1 } ∧
    (startDaemon false 42).spawnedPids = [42] := by
  exact ⟨rfl, rfl, rfl⟩

/-- C8 amended: each start operation is idempotent under its own guard:
when the PID liveness probe succeeds, `startDaemon` spawns nothing,
writes no PID file, and logs already-running; when the in-process
`isListening` flag is set, `startListening` starts no new recorder,
emits nothing, and leaves the state unchanged (but reports nothing —
and neither guard consults the other mechanism). -/
theorem start_idempotence_amended (s : DaemonState) (pid : Nat)
    (h : s.isListening = true) :
    startDaemon true pid =
      { spawnedPids := [], pidFileWrites := [],
        logs := [LogLine.alreadyRunning] } ∧
    startListening s = { state := s, events := [], reqs := [] } := by
  refine ⟨rfl, ?_⟩
  unfold startListening
  simp [h]

/-- Witness for the amended C8 theorem at a concrete listening state. -/
theorem start_idempotence_amended_witness :
    ({ initialState with isListening := true, recorders := 1 } :
      DaemonState).isListening = true ∧
    startDaemon true 7 =
      { spawnedPids := [], pidFileWrites := [],
        logs := [LogLine.alreadyRunning] } ∧
    startListening { initialState with isListening := true, recorders := 1 } =
      { state := { initialState with isListening := true, recorders := 1 },
        events := [], reqs := [] } :=
  ⟨rfl, start_idempotence_amended
    { initialState with isListening := true, recorders := 1 } 7 rfl⟩

/-- Witness for the segmenter theorem at a concrete input. -/
theorem segmenter_emits_exact_chunks_witness :
    (∀ c ∈ (segmentStep [] [1, 2, 3]).1, c.length = CHUNK_SIZE) ∧
    (segmentStep [] [1, 2, 3]).2.length < CHUNK_SIZE ∧
    (segmentStep [] [1, 2, 3]).1.flatten ++ (segmentStep [] [1, 2, 3]).2 <:+
      ([] : List Nat) ++ [1, 2, 3] :=
  segmenter_emits_exact_chunks [] [1, 2, 3]

/-! ## Session state machine lemmas -/

/-- Whatever the transcription result and dispatch outcome, the `finally`
block leaves both flags cleared and the command buffer empty. -/
theorem onSilenceFinish_state (settings : VoiceAssistantSettings)
    (s : DaemonState) (cmdres : Except JStr JStr)
    (dispatch : DispatchOutcome) :
    (onSilenceFinish settings s cmdres dispatch).state =
      { s with
        wakeWordDetected := false
        isProcessing := false
        audioBuffer := [] } := by
  unfold onSilenceFinish
  cases cmdres with
  | error e => rfl
  | ok cmd =>
    simp only
    split <;> rfl

/-- A chunk arriving while `wakeWordDetected` is set (with any value of
`isProcessing`) is appended to the command buffer and re-arms the
inactivity timer; no wake-word check and no event occurs. -/
theorem handleEmittedChunk_of_wake (settings : VoiceAssistantSettings)
    (s : DaemonState) (tr : Except Unit JStr) (a : List Nat)
    (h1 : s.wakeWordDetected = true) :
    handleEmittedChunk settings s tr a =
      { state :=
          { s with
            audioBuffer := s.audioBuffer ++ [a]
            timerPending := true }
        events := [], reqs := [] } := by
  unfold handleEmittedChunk
  simp [h1]

/-- C10: if the inactivity timer fires while `Armed` with an empty
command buffer, the machine goes straight back to `Idle`: the wake-word
flag is cleared, nothing is emitted (in particular no
`processing-command`), and neither the transcription service nor the
dispatcher is invoked. -/
theorem empty_buffer_returns_to_idle (settings : VoiceAssistantSettings)
    (s : DaemonState) (transcribe : List Nat → Except JStr JStr)
    (dispatch : DispatchOutcome)
    (h1 : s.wakeWordDetected = true) (h2 : s.audioBuffer = [])
    (h3 : s.isProcessing = false) :
    onSilenceDetected settings s transcribe dispatch =
      { state := { s with wakeWordDetected := false },
        events := [], reqs := [] } ∧
    (onSilenceDetected settings s transcribe dispatch).state.isProcessing =
      false := by
  unfold onSilenceDetected onSilenceBegin
  simp [h1, h2, h3]

/-- Witness for C10 at a concrete armed-but-empty state. -/
theorem empty_buffer_returns_to_idle_witness :
    onSilenceDetected defaultAssistantSettings
        { initialState with isListening := true, wakeWordDetected := true }
        (fun _ => .ok (str "x")) (.failed (str "e")) =
      { state :=
          { { initialState with
              isListening := true, wakeWordDetected := true } with
            wakeWordDetected := false },
        events := [], reqs := [] } ∧
    (onSilenceDetected defaultAssistantSettings
        { initialState with isListening := true, wakeWordDetected := true }
        (fun _ => .ok (str "x")) (.failed (str "e"))).state.isProcessing =
      false :=
  empty_buffer_returns_to_idle defaultAssistantSettings
    { initialState with isListening := true, wakeWordDetected := true }
    (fun _ => .ok (str "x")) (.failed (str "e")) rfl rfl rfl

/-- C4: wake-word detection is fail-open — a transcription-service error
makes `detectWakeWord` return `false` (the model is a total function, so
nothing propagates) and the chunk handler then behaves exactly as for a
non-detection, leaving the state untouched; and for every chunk handled
in idle state (wake-word flag and processing flag both clear) exactly
one wake-word check is issued, on exactly that chunk's bytes. -/
theorem wake_check_fail_open (settings : VoiceAssistantSettings)
    (s : DaemonState) (tr : Except Unit JStr) (a : List Nat)
    (h1 : s.wakeWordDetected = false) (h2 : s.isProcessing = false) :
    detectWakeWord settings (.error ()) = false ∧
    handleEmittedChunk settings s (.error ()) a =
      { state := s, events := [], reqs := [Req.wakeCheck a] } ∧
    wakeCheckReqs (handleEmittedChunk settings s tr a).reqs = [a] := by
  refine ⟨rfl, ?_, ?_⟩
  · unfold handleEmittedChunk
    simp [h1, h2, detectWakeWord]
  · unfold handleEmittedChunk
    simp only [h1, h2, Bool.not_false, Bool.and_self, if_true]
    split
    · unfold onWakeWordDetected
      split <;> simp [wakeCheckReqs]
    · simp [wakeCheckReqs]

/-- Witness for C4 at a concrete idle state. -/
theorem wake_check_fail_open_witness :
    detectWakeWord defaultAssistantSettings (.error ()) = false ∧
    handleEmittedChunk defaultAssistantSettings
        { initialState with isListening := true } (.error ()) [5, 6] =
      { state := { initialState with isListening := true },
        events := [], reqs := [Req.wakeCheck [5, 6]] } ∧
    wakeCheckReqs (handleEmittedChunk defaultAssistantSettings
        { initialState with isListening := true }
        (.ok (str "hey clanker")) [5, 6]).reqs = [[5, 6]] :=
  wake_check_fail_open defaultAssistantSettings
    { initialState with isListening := true }
    (.ok (str "hey clanker")) [5, 6] rfl rfl

/-- C9: while the wake-word flag is still set — even when the processing
flag is also set, i.e. during command processing — an arriving chunk is
appended to the command audio buffer and the inactivity timer is
restarted (`timerPending` is set again, so the timer may fire once more
before processing completes); such late chunks are discarded when the
processing epilogue clears the buffer on return to `Idle`. -/
theorem late_chunks_buffered_and_discarded (settings : VoiceAssistantSettings)
    (s : DaemonState) (tr : Except Unit JStr) (a : List Nat)
    (cmdres : Except JStr JStr) (dispatch : DispatchOutcome)
    (h1 : s.wakeWordDetected = true) :
    handleEmittedChunk settings s tr a =
      { state :=
          { s with
            audioBuffer := s.audioBuffer ++ [a]
            timerPending := true }
        events := [], reqs := [] } ∧
    (handleEmittedChunk settings s tr a).state.timerPending = true ∧
    (∀ s' : DaemonState,
      (onSilenceFinish settings s' cmdres dispatch).state.audioBuffer = []) := by
  refine ⟨handleEmittedChunk_of_wake settings s tr a h1, ?_, fun s' => ?_⟩
  · rw [handleEmittedChunk_of_wake settings s tr a h1]
  · rw [onSilenceFinish_state]

/-- Witness for C9 at a concrete state with both flags set. -/
theorem late_chunks_buffered_and_discarded_witness :
    handleEmittedChunk defaultAssistantSettings
        { initialState with
          isListening := true, isProcessing := true,
          wakeWordDetected := true, audioBuffer := [[1]] }
        (.error ()) [2] =
      { state :=
          { { initialState with
              isListening := true, isProcessing := true,
              wakeWordDetected := true, audioBuffer := [[1]] } with
            audioBuffer := [[1]] ++ [[2]]
            timerPending := true }
        events := [], reqs := [] } ∧
    (handleEmittedChunk defaultAssistantSettings
        { initialState with
          isListening := true, isProcessing := true,
          wakeWordDetected := true, audioBuffer := [[1]] }
        (.error ()) [2]).state.timerPending = true ∧
    (∀ s' : DaemonState,
      (onSilenceFinish defaultAssistantSettings s'
        (.ok (str "late")) (.failed (str "e"))).state.audioBuffer = []) :=
  late_chunks_buffered_and_discarded defaultAssistantSettings
    { initialState with
      isListening := true, isProcessing := true,
      wakeWordDetected := true, audioBuffer := [[1]] }
    (.error ()) [2] (.ok (str "late")) (.failed (str "e")) rfl

/-- C1: once the inactivity timer has fired on a non-empty command
buffer, whatever the command transcription returns (success or error)
and whatever the dispatch outcome is, the state machine ends with the
wake-word flag cleared, the processing flag cleared, and the command
audio buffer empty, i.e. back in `Idle`. -/
theorem processing_always_returns_to_idle (settings : VoiceAssistantSettings)
    (s : DaemonState) (transcribe : List Nat → Except JStr JStr)
    (dispatch : DispatchOutcome)
    (h1 : s.wakeWordDetected = true) (h2 : s.audioBuffer ≠ []) :
    (onSilenceDetected settings s transcribe dispatch).state.wakeWordDetected
        = false ∧
    (onSilenceDetected settings s transcribe dispatch).state.isProcessing
        = false ∧
    (onSilenceDetected settings s transcribe dispatch).state.audioBuffer
        = [] := by
  unfold onSilenceDetected onSilenceBegin
  simp only [h1, Bool.not_true, Bool.false_or, List.isEmpty_eq_true, h2,
    if_false]
  rw [onSilenceFinish_state]
  exact ⟨rfl, rfl, rfl⟩

/-- Witness for C1: the round-trip with three buffered chunks and a
failing transcription still ends in `Idle` with an empty buffer. -/
theorem processing_always_returns_to_idle_witness :
    (onSilenceDetected defaultAssistantSettings
        { initialState with
          isListening := true, wakeWordDetected := true,
          audioBuffer := [[1], [2], [3]] }
        (fun _ => .error (str "network down"))
        (.failed (str "e"))).state.wakeWordDetected = false ∧
    (onSilenceDetected defaultAssistantSettings
        { initialState with
          isListening := true, wakeWordDetected := true,
          audioBuffer := [[1], [2], [3]] }
        (fun _ => .error (str "network down"))
        (.failed (str "e"))).state.isProcessing = false ∧
    (onSilenceDetected defaultAssistantSettings
        { initialState with
          isListening := true, wakeWordDetected := true,
          audioBuffer := [[1], [2], [3]] }
        (fun _ => .error (str "network down"))
        (.failed (str "e"))).state.audioBuffer = [] :=
  processing_always_returns_to_idle defaultAssistantSettings
    { initialState with
      isListening := true, wakeWordDetected := true,
      audioBuffer := [[1], [2], [3]] }
    (fun _ => .error (str "network down")) (.failed (str "e")) rfl
    (by simp)

/-- C3: when the transcription of the buffered command normalizes
(lower-case, trimmed) to a configured wake phrase, or to that phrase
followed by "." or "...", the command is classified wake-word-only: the
events of the processing run are exactly `processing-command` then
`wake-word-only`, and the dispatcher is never invoked. -/
theorem wake_word_only_never_dispatched (settings : VoiceAssistantSettings)
    (s : DaemonState) (transcribe : List Nat → Except JStr JStr)
    (dispatch : DispatchOutcome) (cmd : JStr)
    (h1 : s.wakeWordDetected = true) (h2 : s.audioBuffer ≠ [])
    (h3 : transcribe s.audioBuffer.flatten = .ok cmd)
    (h4 : ∃ ww ∈ settings.wakeWords,
      jsTrim (toLowerL cmd) = toLowerL ww ∨
      jsTrim (toLowerL cmd) = toLowerL ww ++ str "." ∨
      jsTrim (toLowerL cmd) = toLowerL ww ++ str "...") :
    (onSilenceDetected settings s transcribe dispatch).events =
      [Ev.processingCommand, Ev.wakeWordOnly] ∧
    dispatchReqs (onSilenceDetected settings s transcribe dispatch).reqs =
      [] := by
  have hj : isJustWakeWord settings.wakeWords (jsTrim (toLowerL cmd)) = true := by
    rcases h4 with ⟨ww, hmem, hcase⟩
    unfold isJustWakeWord
    rw [List.any_eq_true]
    refine ⟨ww, hmem, ?_⟩
    rcases hcase with h | h | h <;> simp [h]
  unfold onSilenceDetected onSilenceBegin
  simp only [h1, Bool.not_true, Bool.false_or, List.isEmpty_eq_true, h2,
    if_false]
  rw [h3]
  unfold onSilenceFinish
  simp [hj, dispatchReqs]

/-- Witness for C3: the transcript "Hey Clanker." is wake-word-only. -/
theorem wake_word_only_never_dispatched_witness :
    (onSilenceDetected defaultAssistantSettings
        { initialState with
          isListening := true, wakeWordDetected := true,
          audioBuffer := [[1], [2]] }
        (fun _ => .ok (str "Hey Clanker.")) (.failed (str "e"))).events =
      [Ev.processingCommand, Ev.wakeWordOnly] ∧
    dispatchReqs (onSilenceDetected defaultAssistantSettings
        { initialState with
          isListening := true, wakeWordDetected := true,
          audioBuffer := [[1], [2]] }
        (fun _ => .ok (str "Hey Clanker.")) (.failed (str "e"))).reqs = [] :=
  wake_word_only_never_dispatched defaultAssistantSettings
    { initialState with
      isListening := true, wakeWordDetected := true,
      audioBuffer := [[1], [2]] }
    (fun _ => .ok (str "Hey Clanker.")) (.failed (str "e"))
    (str "Hey Clanker.") rfl (by simp) rfl
    ⟨str "hey clanker", by decide, by decide⟩

/-! ## Trace lemmas for the inactivity-timeout claim -/

theorem runTrace_append (settings : VoiceAssistantSettings)
    (transcribe : List Nat → Except JStr JStr) (s : DaemonState)
    (xs ys : List VInput) :
    runTrace settings transcribe s (xs ++ ys) =
      { state := (runTrace settings transcribe
          (runTrace settings transcribe s xs).state ys).state
        events := (runTrace settings transcribe s xs).events ++
          (runTrace settings transcribe
            (runTrace settings transcribe s xs).state ys).events
        reqs := (runTrace settings transcribe s xs).reqs ++
          (runTrace settings transcribe
            (runTrace settings transcribe s xs).state ys).reqs } := by
  induction xs generalizing s with
  | nil => simp [runTrace]
  | cons i rest ih =>
    simp only [List.cons_append, runTrace, List.append_eq]
    rw [ih]
    simp [List.append_assoc]

/-- Chunks arriving while armed are buffered silently: no event, no
external request, buffer extended in order, timer still pending. -/
theorem runTrace_chunks (settings : VoiceAssistantSettings)
    (transcribe : List Nat → Except JStr JStr) :
    ∀ (cs : List (Except Unit JStr × List Nat)) (s : DaemonState),
      s.wakeWordDetected = true → s.timerPending = true →
      runTrace settings transcribe s (cs.map fun p => VInput.chunk p.1 p.2) =
        { state := { s with audioBuffer := s.audioBuffer ++ cs.map Prod.snd }
          events := [], reqs := [] } := by
  intro cs
  induction cs with
  | nil =>
    intro s h1 h4
    cases s
    simp [runTrace]
  | cons p rest ih =>
    intro s h1 h4
    simp only [List.map_cons, runTrace]
    show _ = _
    rw [show stepInput settings transcribe s (VInput.chunk p.1 p.2) =
      handleEmittedChunk settings s p.1 p.2 from rfl]
    rw [handleEmittedChunk_of_wake settings s p.1 p.2 h1]
    rw [ih _ (by simpa using h1) rfl]
    cases s
    simp_all

/-- The epilogue of command processing never emits `processing-command`
again. -/
theorem processingCommand_not_in_finish (settings : VoiceAssistantSettings)
    (s : DaemonState) (cmdres : Except JStr JStr)
    (dispatch : DispatchOutcome) :
    Ev.processingCommand ∉ (onSilenceFinish settings s cmdres dispatch).events := by
  unfold onSilenceFinish
  cases cmdres with
  | error e => simp
  | ok cmd =>
    simp only
    split
    · cases dispatch with
      | completed out err =>
        simp only [executeCommandEvents, List.mem_cons, List.mem_append]
        split_ifs <;> simp
      | failed m => simp [executeCommandEvents]
    · simp

/-- The epilogue of command processing never issues a second
command-transcription request. -/
theorem commandTranscribeReqs_finish (settings : VoiceAssistantSettings)
    (s : DaemonState) (cmdres : Except JStr JStr)
    (dispatch : DispatchOutcome) :
    commandTranscribeReqs (onSilenceFinish settings s cmdres dispatch).reqs =
      [] := by
  unfold onSilenceFinish
  cases cmdres with
  | error e => rfl
  | ok cmd =>
    simp only
    split <;> simp [commandTranscribeReqs]

/-- C2 counterexample: entering `Armed` and then letting the timeout
fire with no chunk collected does NOT transition to `Processing`: no
`processing-command` event is emitted and no command transcription is
requested (the machine goes straight back to `Idle`), contradicting
"transitions to `Processing` exactly once". -/
theorem armed_timeout_counterexample :
    (runTrace defaultAssistantSettings (fun _ => .ok (str "open the door"))
      { initialState with
        isListening := true, wakeWordDetected := true, timerPending := true }
      [VInput.timerFire (.failed (str "e"))]).events.count
        Ev.processingCommand = 0 ∧
    commandTranscribeReqs
      (runTrace defaultAssistantSettings (fun _ => .ok (str "open the door"))
        { initialState with
          isListening := true, wakeWordDetected := true, timerPending := true }
        [VInput.timerFire (.failed (str "e"))]).reqs = [] := by
  exact ⟨rfl, rfl⟩

/-- C2 amended: after entering `Armed`, once at least one chunk has been
collected, the firing of the inactivity timer transitions to
`Processing` exactly once — exactly one `processing-command` event — and
the audio passed to the transcription service is exactly the
concatenation of the chunks collected before the timeout fired (when no
chunk was collected the machine instead returns directly to `Idle`,
cf. the empty-buffer theorem). -/
theorem commandTranscribeReqs_append (r1 r2 : List Req) :
    commandTranscribeReqs (r1 ++ r2) =
      commandTranscribeReqs r1 ++ commandTranscribeReqs r2 := by
  unfold commandTranscribeReqs
  exact List.filterMap_append r1 r2 _

/-- A timer that fires while armed on a non-empty buffer enters
processing exactly once and transcribes the concatenated buffer. -/
theorem timerFire_processing (settings : VoiceAssistantSettings)
    (transcribe : List Nat → Except JStr JStr) (dispatch : DispatchOutcome)
    (s : DaemonState)
    (h1 : s.wakeWordDetected = true) (h4 : s.timerPending = true)
    (hne : s.audioBuffer ≠ []) :
    (stepInput settings transcribe s
      (VInput.timerFire dispatch)).events.count Ev.processingCommand = 1 ∧
    commandTranscribeReqs (stepInput settings transcribe s
      (VInput.timerFire dispatch)).reqs = [s.audioBuffer.flatten] := by
  simp only [stepInput, h4, if_true]
  unfold onSilenceDetected onSilenceBegin
  simp only [h1, Bool.not_true, Bool.false_or, List.isEmpty_eq_true, hne,
    if_false]
  constructor
  · rw [show ([Ev.processingCommand] ++
      (onSilenceFinish settings _ (transcribe s.audioBuffer.flatten)
        dispatch).events).count Ev.processingCommand =
      1 + ((onSilenceFinish settings _ (transcribe s.audioBuffer.flatten)
        dispatch).events).count Ev.processingCommand from
      List.count_append _ _ _]
    rw [List.count_eq_zero.mpr (processingCommand_not_in_finish _ _ _ _)]
  · rw [commandTranscribeReqs_append,
      commandTranscribeReqs_finish]
    rfl

theorem armed_timeout_single_processing (settings : VoiceAssistantSettings)
    (transcribe : List Nat → Except JStr JStr) (dispatch : DispatchOutcome)
    (s : DaemonState) (cs : List (Except Unit JStr × List Nat))
    (h1 : s.wakeWordDetected = true) (_h2 : s.isProcessing = false)
    (h3 : s.audioBuffer = []) (h4 : s.timerPending = true) (h5 : cs ≠ []) :
    (runTrace settings transcribe s
      ((cs.map fun p => VInput.chunk p.1 p.2) ++
        [VInput.timerFire dispatch])).events.count Ev.processingCommand = 1 ∧
    commandTranscribeReqs (runTrace settings transcribe s
      ((cs.map fun p => VInput.chunk p.1 p.2) ++
        [VInput.timerFire dispatch])).reqs = [(cs.map Prod.snd).flatten] := by
  rw [runTrace_append, runTrace_chunks settings transcribe cs s h1 h4]
  have hbuf :
      ({ s with audioBuffer := s.audioBuffer ++ cs.map Prod.snd } :
        DaemonState).audioBuffer = cs.map Prod.snd := by
    rw [show ({ s with audioBuffer := s.audioBuffer ++ cs.map Prod.snd } :
      DaemonState).audioBuffer = s.audioBuffer ++ cs.map Prod.snd from rfl,
      h3, List.nil_append]
  have hne : ({ s with audioBuffer := s.audioBuffer ++ cs.map Prod.snd } :
      DaemonState).audioBuffer ≠ [] := by
    rw [hbuf]
    simpa using h5
  obtain ⟨hc, hr⟩ := timerFire_processing settings transcribe dispatch
    { s with audioBuffer := s.audioBuffer ++ cs.map Prod.snd } h1 h4 hne
  rw [hbuf] at hr
  simp only [runTrace, List.append_nil, List.nil_append]
  exact ⟨hc, hr⟩

/-- Witness for the amended C2 theorem: two chunks buffered while armed,
then the timer fires; processing is entered once and the transcribed
audio is the concatenation of the two chunks. -/
theorem armed_timeout_single_processing_witness :
    (runTrace defaultAssistantSettings (fun _ => .ok (str "open the door"))
      { initialState with
        isListening := true, wakeWordDetected := true, timerPending := true }
      ((([(Except.error (), [1]), (Except.error (), [2, 3])] :
          List (Except Unit JStr × List Nat)).map
            fun p => VInput.chunk p.1 p.2) ++
        [VInput.timerFire (.completed (str "done") [])])).events.count
      Ev.processingCommand = 1 ∧
    commandTranscribeReqs
      (runTrace defaultAssistantSettings (fun _ => .ok (str "open the door"))
        { initialState with
          isListening := true, wakeWordDetected := true, timerPending := true }
        ((([(Except.error (), [1]), (Except.error (), [2, 3])] :
            List (Except Unit JStr × List Nat)).map
              fun p => VInput.chunk p.1 p.2) ++
          [VInput.timerFire (.completed (str "done") [])])).reqs =
      [(([(Except.error (), [1]), (Except.error (), [2, 3])] :
          List (Except Unit JStr × List Nat)).map Prod.snd).flatten] :=
  armed_timeout_single_processing defaultAssistantSettings
    (fun _ => .ok (str "open the door")) (.completed (str "done") [])
    { initialState with
      isListening := true, wakeWordDetected := true, timerPending := true }
    [(Except.error (), [1]), (Except.error (), [2, 3])]
    rfl rfl rfl rfl (List.cons_ne_nil _ _)

end VoiceDaemon
